import Mathlib

/-
Verification of the session orchestration and recovery layer of the bloops
game bot (internal/bloopsbot/manager.go), as a shallow embedding in Lean 4.

Go maps are embedded as functions `Int → Option α`; Go `error` results are
embedded as `Option String` (`none` = nil error); calls into storage
collaborators and the external wizard/match engines are embedded as explicit
result parameters (the environment's answer to the call), since those
collaborators live outside this layer.
-/

set_option maxHeartbeats 1000000

namespace BloopsBot

/-- Modelled from the spec: a bonus task ("bloops") from the resource
catalog (`resource.Bloops`, whose struct definition is outside the provided
sources); only its identity matters to this layer, which copies the catalog
verbatim into a match config. -/
structure Bloops where
  name : String
  deriving DecidableEq

/-- Modelled from the spec: one per-round performance record of a player
(`matchstateModel.Rate`, struct outside the provided sources): elapsed
duration (nanoseconds, as Go `time.Duration`), points awarded, the
bonus-task flag, and the bonus-task's name. Fields are those read by
`appendStat` in manager.go. -/
structure Rate where
  duration : Int
  points : Int
  bloops : Bool
  bloopsName : String
  deriving DecidableEq

/-- Modelled from the spec: a match participant (`matchstateModel.Player`,
struct outside the provided sources): user identity, offline flag, and the
ordered Rate sequence. Fields are those read by manager.go. -/
structure Player where
  userID : Int
  offline : Bool
  rates : List Rate
  deriving DecidableEq

/-- The data fields of `match.Config` built by `buildGameConfig` and
`NewMatchSessionFromSerialized` in manager.go.  The `Tg`, `DoneFn`, `WarnFn`
handles are process-level wiring (gateway handle and completion callbacks),
not serializable session state, and are threaded separately in this
embedding. -/
structure MatchConfig where
  authorID : Int
  authorName : String
  roundsNum : Int
  roundTime : Int
  timeout : Int
  vote : Bool
  code : Int
  categories : List String
  letters : List String
  bloopses : List Bloops
  deriving DecidableEq

/-- Modelled from the spec: a running `match.Session` (external match
engine).  The session holds the MatchConfig, the current machine state
(opaque to this layer; an integer state tag), the current round index, the
creation timestamp and the player list — exactly the fields manager.go
reads and writes on it. -/
structure MatchSession where
  config : MatchConfig
  state : Int
  currRoundIdx : Int
  createdAt : Int
  players : List Player
  deriving DecidableEq

/-- Modelled from the spec: `match.NewSession` — construction of a fresh
match session from a MatchConfig (external engine entry point).  A fresh
session starts in the engine's initial machine state with no players and
round index zero; the config is stored verbatim. -/
def NewSession (c : MatchConfig) (now : Int) : MatchSession :=
  { config := c, state := 0, currRoundIdx := 0, createdAt := now, players := [] }

/-- `matchstateModel.State` (the PersistedMatchState snapshot), with exactly
the fields written by `serializeGames` in manager.go. -/
structure State where
  timeout : Int
  authorID : Int
  authorName : String
  roundsNum : Int
  roundTime : Int
  vote : Bool
  code : Int
  state : Int
  currRoundIdx : Int
  createdAt : Int
  categories : List String
  letters : List String
  bloopses : List Bloops
  players : List Player
  deriving DecidableEq

/-- Modelled from the spec: a wizard (builder) session `builder.Session`
(struct outside the provided sources): author identity, round count, round
duration, selected categories and letters (text + inclusion flag),
voting-enabled flag, bonus-task-enabled flag, chat destination.  Fields are
those read by `buildGameConfig` and `builderDoneFn` in manager.go. -/
structure BuilderSession where
  authorID : Int
  authorName : String
  roundsNum : Int
  roundTime : Int
  vote : Bool
  bloops : Bool
  categories : List (String × Bool)
  letters : List (String × Bool)
  chatID : Int
  deriving DecidableEq

/-- Modelled from the spec: `userModel.User` (struct outside the provided
sources), with the fields manager.go reads and writes; `status` is the
active/banned flag, integer-represented with 0 as the Go zero value. -/
structure User where
  id : Int
  firstName : String
  lastName : String
  languageCode : String
  username : String
  admin : Bool
  status : Int
  createdAt : Int
  stars : Int
  bloops : Int
  deriving DecidableEq

/-- The Go zero value `var u userModel.User`. -/
def User.zero : User :=
  { id := 0, firstName := "", lastName := "", languageCode := "", username := ""
    admin := false, status := 0, createdAt := 0, stars := 0, bloops := 0 }

/-- Modelled from the spec: `userModel.StatusActive` (constant outside the
provided sources); its concrete value is irrelevant to the claims, only
that recvUser assigns it to newly created users. -/
def StatusActive : Int := 1

/-- A registered one-shot callback `commandCbHandlerFunc = func(string) error`. -/
abbrev CbHandler := String → Option String

/-- A middleware predicate `commandMiddlewareFunc = func(userModel.User, int64) (bool, error)`. -/
abbrev Middleware := User → Int → Bool × Option String

/-- A command-table entry (`commandHandler` in manager.go): the command body
and its ordered middleware list. -/
structure CommandHandler where
  commandFn : User → Int → Option String
  middlewareFn : List Middleware

/-- The registry maps of `manager` (manager.go): wizard sessions by author,
match sessions by member user, match sessions by join code, one-shot
callbacks by user, and the static command table.  All Go map reads/writes
happen under `m.mtx`; in this sequential embedding each registry operation
is one atomic function on this record. -/
structure Manager where
  userBuildingSessions : Int → Option BuilderSession
  userMatchSessions : Int → Option MatchSession
  matchSessions : Int → Option MatchSession
  commandCbHandlers : Int → Option CbHandler
  commandHandlers : String → Option CommandHandler

/-- `manager.userBuildingSession` (manager.go lines 479-485): read the
wizard-session map. -/
def userBuildingSession (m : Manager) (userID : Int) : Option BuilderSession :=
  m.userBuildingSessions userID

/-- `manager.userMatchSession` (manager.go lines 487-493): read the
match-by-user map. -/
def userMatchSession (m : Manager) (userID : Int) : Option MatchSession :=
  m.userMatchSessions userID

/-- `manager.matchSession` (manager.go lines 495-501): read the
match-by-code map. -/
def matchSession (m : Manager) (code : Int) : Option MatchSession :=
  m.matchSessions code

/-- `manager.commandCbHandler` (manager.go lines 464-469): look up the
one-shot callback for a user under a read lock.  The body is a pure map
read — it performs no delete — so in state-passing form it returns the
registry unchanged. -/
def commandCbHandler (m : Manager) (userID : Int) : Option CbHandler × Manager :=
  (m.commandCbHandlers userID, m)

/-- `manager.resetUserSessions` (manager.go lines 471-477): under the
exclusive lock, delete the user's wizard session, match-membership entry
and one-shot callback. -/
def resetUserSessions (m : Manager) (userID : Int) : Manager :=
  { m with
    userBuildingSessions := fun k => if k = userID then none else m.userBuildingSessions k
    userMatchSessions := fun k => if k = userID then none else m.userMatchSessions k
    commandCbHandlers := fun k => if k = userID then none else m.commandCbHandlers k }

/-- C4: after `resetUserSessions u`, the wizard-session lookup, the
match-session-by-user lookup and the one-shot callback lookup for `u` all
report not-found, while every lookup for any other user `v ≠ u` is
unchanged, and the match-by-code map and command table are untouched. -/
theorem resetUserSessions_clears_user_and_preserves_others
    (m : Manager) (u v : Int) (hne : v ≠ u) :
    userBuildingSession (resetUserSessions m u) u = none ∧
    userMatchSession (resetUserSessions m u) u = none ∧
    (commandCbHandler (resetUserSessions m u) u).fst = none ∧
    userBuildingSession (resetUserSessions m u) v = userBuildingSession m v ∧
    userMatchSession (resetUserSessions m u) v = userMatchSession m v ∧
    (commandCbHandler (resetUserSessions m u) v).fst = (commandCbHandler m v).fst ∧
    (resetUserSessions m u).matchSessions = m.matchSessions ∧
    (resetUserSessions m u).commandHandlers = m.commandHandlers := by
  refine ⟨?_, ?_, ?_, ?_, ?_, ?_, rfl, rfl⟩ <;>
    simp [userBuildingSession, userMatchSession, commandCbHandler,
      resetUserSessions, hne]

/-- A concrete wizard session used by witnesses. -/
def bSessW : BuilderSession :=
  { authorID := 7, authorName := "a", roundsNum := 3, roundTime := 30
    vote := false, bloops := false, categories := [("cat", true)]
    letters := [("b", true)], chatID := 7 }

/-- A concrete match config used by witnesses. -/
def mConfW : MatchConfig :=
  { authorID := 7, authorName := "a", roundsNum := 3, roundTime := 30
    timeout := 5, vote := false, code := 42, categories := ["cat"]
    letters := ["b"], bloopses := [] }

/-- A concrete match session used by witnesses. -/
def mSessW : MatchSession :=
  { config := mConfW, state := 1, currRoundIdx := 0, createdAt := 0
    players := [{ userID := 7, offline := false, rates := [] }] }

/-- A concrete one-shot callback used by witnesses. -/
def cbW : CbHandler := fun _ => none

/-- A concrete registry with user 7's wizard, match membership and one-shot
callback all registered, used by witnesses. -/
def mgrW : Manager :=
  { userBuildingSessions := fun k => if k = 7 then some bSessW else none
    userMatchSessions := fun k => if k = 7 then some mSessW else none
    matchSessions := fun k => if k = 42 then some mSessW else none
    commandCbHandlers := fun k => if k = 7 then some cbW else none
    commandHandlers := fun _ => none }

/-- Witness for C4 at user 7 and bystander 8 on a concrete registry. -/
theorem resetUserSessions_clears_witness :
    (8 : Int) ≠ 7 ∧
    (userBuildingSession (resetUserSessions mgrW 7) 7 = none ∧
      userMatchSession (resetUserSessions mgrW 7) 7 = none ∧
      (commandCbHandler (resetUserSessions mgrW 7) 7).fst = none ∧
      userBuildingSession (resetUserSessions mgrW 7) 8 = userBuildingSession mgrW 8 ∧
      userMatchSession (resetUserSessions mgrW 7) 8 = userMatchSession mgrW 8 ∧
      (commandCbHandler (resetUserSessions mgrW 7) 8).fst = (commandCbHandler mgrW 8).fst ∧
      (resetUserSessions mgrW 7).matchSessions = mgrW.matchSessions ∧
      (resetUserSessions mgrW 7).commandHandlers = mgrW.commandHandlers) :=
  ⟨by decide, resetUserSessions_clears_user_and_preserves_others mgrW 7 8 (by decide)⟩

/-- C8: the one-shot callback lookup is not consuming: when a callback is
registered for `u`, `commandCbHandler` returns it, leaves the whole registry
(every map) unchanged, and an immediately repeated lookup returns the same
callback again. -/
theorem commandCbHandler_non_consuming (m : Manager) (u : Int) (cb : CbHandler)
    (h : m.commandCbHandlers u = some cb) :
    (commandCbHandler m u).fst = some cb ∧
    (commandCbHandler m u).snd = m ∧
    (commandCbHandler (commandCbHandler m u).snd u).fst = some cb ∧
    (commandCbHandler m u).snd.userBuildingSessions = m.userBuildingSessions ∧
    (commandCbHandler m u).snd.userMatchSessions = m.userMatchSessions ∧
    (commandCbHandler m u).snd.matchSessions = m.matchSessions ∧
    (commandCbHandler m u).snd.commandHandlers = m.commandHandlers :=
  ⟨h, rfl, h, rfl, rfl, rfl, rfl⟩

/-- A concrete registry whose every user has the one-shot callback `cbW`,
used by the C8 witness. -/
def mgrCb : Manager :=
  { userBuildingSessions := fun _ => none
    userMatchSessions := fun _ => none
    matchSessions := fun _ => none
    commandCbHandlers := fun _ => some cbW
    commandHandlers := fun _ => none }

/-- Witness for C8 at user 5 on a concrete registry. -/
theorem commandCbHandler_non_consuming_witness :
    (commandCbHandler mgrCb 5).fst = some cbW ∧
    (commandCbHandler mgrCb 5).snd = mgrCb ∧
    (commandCbHandler (commandCbHandler mgrCb 5).snd 5).fst = some cbW ∧
    (commandCbHandler mgrCb 5).snd.userBuildingSessions = mgrCb.userBuildingSessions ∧
    (commandCbHandler mgrCb 5).snd.userMatchSessions = mgrCb.userMatchSessions ∧
    (commandCbHandler mgrCb 5).snd.matchSessions = mgrCb.matchSessions ∧
    (commandCbHandler mgrCb 5).snd.commandHandlers = mgrCb.commandHandlers :=
  commandCbHandler_non_consuming mgrCb 5 cbW rfl

/-- The pure snapshot construction of `manager.serializeGames` (manager.go
lines 607-635): copy the session's config fields, machine state, round
index, creation time and player list into a `matchstateModel.State` (the
Go `make`+`copy` pairs are value copies of the slices, which on Lean lists
are the lists themselves). -/
def serializeGame (session : MatchSession) : State :=
  { timeout := session.config.timeout
    authorID := session.config.authorID
    authorName := session.config.authorName
    roundsNum := session.config.roundsNum
    roundTime := session.config.roundTime
    vote := session.config.vote
    code := session.config.code
    state := session.state
    currRoundIdx := session.currRoundIdx
    createdAt := session.createdAt
    categories := session.config.categories
    letters := session.config.letters
    bloopses := session.config.bloopses
    players := session.players }

/-- `manager.serializeGames` (manager.go lines 607-635): build the snapshot
and hand it to `stateDB.Add`; `addRes` is the durable store's answer to
that call (`none` = success). -/
def serializeGames (addRes : State → Option String) (session : MatchSession) :
    Option String :=
  match addRes (serializeGame session) with
  | some e => some ("state db add: " ++ e)
  | none => none

/-- `NewMatchSessionFromSerialized` (manager.go lines 573-605): rebuild a
`match.Config` from the snapshot, construct a fresh session from it, then
overwrite its machine state, round index and player list from the
snapshot. -/
def NewMatchSessionFromSerialized (ser : State) (now : Int) : MatchSession :=
  let c : MatchConfig :=
    { authorID := ser.authorID
      authorName := ser.authorName
      roundsNum := ser.roundsNum
      roundTime := ser.roundTime
      categories := ser.categories
      letters := ser.letters
      bloopses := ser.bloopses
      vote := ser.vote
      code := ser.code
      timeout := ser.timeout }
  let s := NewSession c now
  { s with state := ser.state, currRoundIdx := ser.currRoundIdx, players := ser.players }

/-- C3: serialize followed by restore is an identity transform on the
config (author identity, rounds number, round time, timeout, vote flag,
code, categories, letters, bonus-task pool), the current round index, the
machine state and the player list. -/
theorem serialize_restore_roundtrip (session : MatchSession) (now : Int) :
    (NewMatchSessionFromSerialized (serializeGame session) now).config = session.config ∧
    (NewMatchSessionFromSerialized (serializeGame session) now).currRoundIdx = session.currRoundIdx ∧
    (NewMatchSessionFromSerialized (serializeGame session) now).state = session.state ∧
    (NewMatchSessionFromSerialized (serializeGame session) now).players = session.players :=
  ⟨rfl, rfl, rfl, rfl⟩

/-- `manager.buildGameConfig` (manager.go lines 325-360): assemble the
immutable match config from the wizard session's selections — only
categories and letters whose inclusion flag is set, and a snapshot of the
whole bonus-task catalog when bonus tasks were enabled. -/
def buildGameConfig (playingTimeout : Int) (catalog : List Bloops)
    (session : BuilderSession) (code : Int) : MatchConfig :=
  { timeout := playingTimeout
    code := code
    authorID := session.authorID
    authorName := session.authorName
    roundsNum := session.roundsNum
    roundTime := session.roundTime
    bloopses := if session.bloops then catalog else []
    categories := (session.categories.filter (fun c => c.snd)).map (fun c => c.fst)
    letters := (session.letters.filter (fun l => l.snd)).map (fun l => l.fst)
    vote := session.vote }

/-- The code-allocation loop of `manager.builderDoneFn` (manager.go lines
377-391), with explicit fuel standing for the number of loop iterations the
unbounded `for` is allowed.  The source generates `code` ONCE, before the
loop; an iteration probes the registry and, when the code is free,
constructs the session and registers it under that code — but on a
collision the loop body does nothing and re-probes the SAME code.
Returns `some` of the updated registry and the registered code when the
loop exits within the fuel, `none` when the fuel is exhausted. -/
def builderDoneLoop (m : Manager) (session : BuilderSession)
    (playingTimeout now : Int) (catalog : List Bloops) (code : Int) :
    Nat → Option (Manager × Int)
  | 0 => none
  | Nat.succ n =>
    match matchSession m code with
    | none =>
      let s := NewSession (buildGameConfig playingTimeout catalog session code) now
      some ({ m with matchSessions := fun k => if k = code then some s else m.matchSessions k }, code)
    | some _ => builderDoneLoop m session playingTimeout now catalog code n

/-- C1 (code bug): when the one-and-only generated code already collides
with a registered match, the allocation loop of `builderDoneFn` never
registers anything, for any number of iterations — the code is never
regenerated, so the protocol cannot terminate under a second, distinct
code. -/
theorem builderDoneLoop_spins_on_collision (m : Manager) (session : BuilderSession)
    (playingTimeout now : Int) (catalog : List Bloops) (code : Int) (fuel : Nat)
    (h : (matchSession m code).isSome = true) :
    builderDoneLoop m session playingTimeout now catalog code fuel = none := by
  induction fuel with
  | zero => rfl
  | succ n ih =>
    cases hm : matchSession m code with
    | none => rw [hm] at h; cases h
    | some s => simp [builderDoneLoop, hm, ih]

/-- Witness for C1 on a concrete registry where the generated code 42 is
already registered: 1000 iterations still register nothing. -/
theorem builderDoneLoop_spins_witness :
    (matchSession mgrW 42).isSome = true ∧
    builderDoneLoop mgrW bSessW 5 0 [] 42 1000 = none :=
  ⟨by decide, builderDoneLoop_spins_on_collision mgrW bSessW 5 0 [] 42 1000 (by decide)⟩

/-- A StatRecord (`statModel.Stat`, struct outside the provided sources),
with exactly the fields `appendStat` in manager.go assigns. -/
structure Stat where
  userID : Int
  conclusion : Int
  categories : List String
  roundsNum : Int
  playersNum : Int
  sumPoints : Int
  bestPoints : Int
  worstPoints : Int
  averagePoints : Int
  bestDuration : Int
  worstDuration : Int
  averageDuration : Int
  sumDuration : Int
  bloops : List String
  deriving DecidableEq

/-- Modelled from the spec: `statModel.NewStat` (outside the provided
sources) — a fresh record for the given user with zero-valued fields. -/
def NewStat (userID : Int) : Stat :=
  { userID := userID, conclusion := 0, categories := [], roundsNum := 0
    playersNum := 0, sumPoints := 0, bestPoints := 0, worstPoints := 0
    averagePoints := 0, bestDuration := 0, worstDuration := 0
    averageDuration := 0, sumDuration := 0, bloops := [] }

/-- Modelled from the spec: `statModel.StatusFavorite` (constant outside
the provided sources); its concrete value is irrelevant to the claims. -/
def StatusFavorite : Int := 1

/-- The accumulator variables of the per-player fold in `appendStat`
(manager.go lines 694-699), with the source's initial sentinels:
`bestDuration = 2 << 31` nanoseconds, `worstPoints = 2 << 28`. -/
structure StatAcc where
  bestDuration : Int
  worstDuration : Int
  sumDuration : Int
  durationNum : Int
  bestPoints : Int
  worstPoints : Int
  sumPoints : Int
  pointsNum : Int
  bloopsList : List String
  deriving DecidableEq

/-- The initial accumulator of the fold (manager.go lines 694-699). -/
def initStatAcc : StatAcc :=
  { bestDuration := 2 * 2 ^ 31, worstDuration := 0, sumDuration := 0
    durationNum := 0, bestPoints := 0, worstPoints := 2 * 2 ^ 28
    sumPoints := 0, pointsNum := 0, bloopsList := [] }

/-- One iteration of the Rate fold in `appendStat` (manager.go lines
701-723): non-bonus rounds go into the duration distribution, bonus rounds
append the bonus-task name; every round goes into the points
distribution. -/
def rateStep (acc : StatAcc) (rate : Rate) : StatAcc :=
  let acc :=
    if !rate.bloops then
      { acc with
        durationNum := acc.durationNum + 1
        bestDuration := if rate.duration < acc.bestDuration then rate.duration else acc.bestDuration
        worstDuration := if rate.duration > acc.worstDuration then rate.duration else acc.worstDuration
        sumDuration := acc.sumDuration + rate.duration }
    else
      { acc with bloopsList := acc.bloopsList ++ [rate.bloopsName] }
  { acc with
    pointsNum := acc.pointsNum + 1
    bestPoints := if rate.points > acc.bestPoints then rate.points else acc.bestPoints
    worstPoints := if rate.points < acc.worstPoints then rate.points else acc.worstPoints
    sumPoints := acc.sumPoints + rate.points }

/-- The per-player body of `appendStat` (manager.go lines 677-741):
favorite tagging, config copies, the Rate fold, and the guarded integer
averages. -/
def playerStat (session : MatchSession) (favorites : List Int) (player : Player) : Stat :=
  let stat := NewStat player.userID
  let stat :=
    if favorites.contains player.userID then { stat with conclusion := StatusFavorite } else stat
  let stat :=
    { stat with
      categories := session.config.categories
      roundsNum := session.config.roundsNum
      playersNum := (session.players.length : Int) }
  let acc := player.rates.foldl rateStep initStatAcc
  { stat with
    sumPoints := acc.sumPoints
    bestPoints := acc.bestPoints
    worstPoints := acc.worstPoints
    averagePoints := if acc.pointsNum > 0 then acc.sumPoints / acc.pointsNum else stat.averagePoints
    bestDuration := acc.bestDuration
    worstDuration := acc.worstDuration
    averageDuration := if acc.durationNum > 0 then acc.sumDuration / acc.durationNum else stat.averageDuration
    sumDuration := acc.sumDuration
    bloops := acc.bloopsList }

/-- The record list produced by `appendStat` (manager.go lines 672-742):
one record per online player, offline players skipped; `favorites` is the
match engine's `Favorites()` answer as a list of user IDs. -/
def appendStatRecords (session : MatchSession) (favorites : List Int) : List Stat :=
  (session.players.filter (fun p => !p.offline)).map (playerStat session favorites)

/-- The scenario player of C2: rounds
`[(duration 10s, points 5, bonus false), (duration 0, points 3, bonus true, name X)]`
(durations in nanoseconds). -/
def playerC2 : Player :=
  { userID := 1, offline := false
    rates :=
      [{ duration := 10000000000, points := 5, bloops := false, bloopsName := "" },
       { duration := 0, points := 3, bloops := true, bloopsName := "X" }] }

/-- The scenario session of C2: a single online player with the scenario
rounds. -/
def sessC2 : MatchSession :=
  { config := mConfW, state := 0, currRoundIdx := 2, createdAt := 0
    players := [playerC2] }

/-- C2 (code bug): evaluating the fold of `appendStat` on the scenario
rounds.  All claimed fields hold except bestDuration: the fold initializes
bestDuration to the sentinel `2 << 31` nanoseconds (4294967296 ns ≈ 4.29 s),
the 10 s round duration exceeds the sentinel, so the minimum update never
fires and bestDuration stays at the sentinel instead of the claimed 10 s. -/
theorem appendStat_scenario_eval :
    (playerStat sessC2 [] playerC2).worstDuration = 10000000000 ∧
    (playerStat sessC2 [] playerC2).averageDuration = 10000000000 ∧
    (playerStat sessC2 [] playerC2).sumPoints = 8 ∧
    (playerStat sessC2 [] playerC2).bestPoints = 5 ∧
    (playerStat sessC2 [] playerC2).worstPoints = 3 ∧
    (playerStat sessC2 [] playerC2).averagePoints = 4 ∧
    (playerStat sessC2 [] playerC2).bloops = ["X"] ∧
    (playerStat sessC2 [] playerC2).bestDuration = 4294967296 ∧
    (playerStat sessC2 [] playerC2).bestDuration ≠ 10000000000 ∧
    appendStatRecords sessC2 [] = [playerStat sessC2 [] playerC2] := by
  refine ⟨?_, ?_, ?_, ?_, ?_, ?_, ?_, ?_, ?_, ?_⟩ <;> decide

/-- The dispatch steps of the pipeline (§4.2): command table, one-shot
callback, wizard session, match session. -/
inductive Route
  | command
  | oneShot
  | wizard
  | game
  deriving DecidableEq

/-- `manager.handleCallbackQuery` (manager.go lines 301-323) as a routing
trace: which session handlers run for a callback-style event from user
`uid`, and the returned error.  `be` and `me` are the external wizard and
match engines' answers to their `Execute` calls (`none` = nil error).  The
source consults only the wizard and match maps — never the command table
or the one-shot callback map — and runs the two lookups in sequence: the
wizard branch has no early return on success, only on error. -/
def handleCallbackQuery (m : Manager) (uid : Int) (be me : Option String) :
    List Route × Option String :=
  match userBuildingSession m uid with
  | some _ =>
    match be with
    | some e => ([Route.wizard], some ("execute building cb: " ++ e))
    | none =>
      match userMatchSession m uid with
      | some _ =>
        match me with
        | some e => ([Route.wizard, Route.game], some ("execute playing cb: " ++ e))
        | none => ([Route.wizard, Route.game], none)
      | none => ([Route.wizard], none)
  | none =>
    match userMatchSession m uid with
    | some _ =>
      match me with
      | some e => ([Route.game], some ("execute playing cb: " ++ e))
      | none => ([Route.game], none)
    | none => ([], none)

/-- A registry where user 1 has BOTH an active wizard session and an
active match session — the C5 counterexample state. -/
def mgrBoth : Manager :=
  { userBuildingSessions := fun k => if k = 1 then some bSessW else none
    userMatchSessions := fun k => if k = 1 then some mSessW else none
    matchSessions := fun k => if k = 42 then some mSessW else none
    commandCbHandlers := fun _ => none
    commandHandlers := fun _ => none }

/-- C5 counterexample: user 1 has an active wizard session, yet the match
session handler IS invoked for the callback event — the source has no
early return after the wizard branch succeeds, so both handlers run,
refuting "first matching route" for callback events. -/
theorem handleCallbackQuery_counterexample :
    (userBuildingSession mgrBoth 1).isSome = true ∧
    (handleCallbackQuery mgrBoth 1 none none).fst = [Route.wizard, Route.game] ∧
    Route.game ∈ (handleCallbackQuery mgrBoth 1 none none).fst := by
  refine ⟨?_, ?_, ?_⟩ <;> decide

/-- C5 as amended: a callback-style event never reaches the command table
or the one-shot callback step; the wizard handler runs exactly when the
sender has a wizard session, and the match handler runs exactly when the
sender has a match session AND (no wizard session exists OR the wizard
handler returned without error) — wizard first, but NOT first-match-only:
with both sessions present and a successful wizard handler, both run. -/
theorem handleCallbackQuery_routes (m : Manager) (uid : Int) (be me : Option String) :
    Route.command ∉ (handleCallbackQuery m uid be me).fst ∧
    Route.oneShot ∉ (handleCallbackQuery m uid be me).fst ∧
    (handleCallbackQuery m uid be me).fst =
      (if (userBuildingSession m uid).isSome then [Route.wizard] else []) ++
      (if (userMatchSession m uid).isSome ∧
          ((userBuildingSession m uid).isNone ∨ be = none) then [Route.game] else []) := by
  cases hb : userBuildingSession m uid <;>
    cases hm : userMatchSession m uid <;>
      cases be <;>
        cases me <;>
          simp [handleCallbackQuery, hb, hm]

/-- `stateDB.FetchAll` failure modes: the not-found sentinel
`stateDB.ErrEntryNotFound`, or any other storage error. -/
inductive StateDbFetchErr
  | entryNotFound
  | other (e : String)
  deriving DecidableEq

/-- `stateDB.Clean` failure modes: the missing-bucket sentinel
`stateDB.ErrBucketNotFound`, or any other storage error. -/
inductive StateDbCleanErr
  | bucketNotFound
  | other (e : String)
  deriving DecidableEq

/-- The reconstruction of one snapshot in `restoreInterruptedGames`
(manager.go lines 644-653): rebuild the session, register it under its
code, and register each online (non-offline) player as a member. -/
def restoreOne (now : Int) (acc : Manager) (state : State) : Manager :=
  let session := NewMatchSessionFromSerialized state now
  let acc1 :=
    { acc with
      matchSessions := fun k => if k = session.config.code then some session else acc.matchSessions k }
  session.players.foldl
    (fun a p =>
      if !p.offline then
        { a with
          userMatchSessions := fun k => if k = p.userID then some session else a.userMatchSessions k }
      else a)
    acc1

/-- The registry effect of the snapshot loop in `restoreInterruptedGames`. -/
def restoreFold (m : Manager) (now : Int) (states : List State) : Manager :=
  states.foldl (restoreOne now) m

/-- `manager.restoreInterruptedGames` (manager.go lines 637-670).
`states` and `ferr` are the two results of `stateDB.FetchAll`; `cleanRes`
is the result of `stateDB.Clean` should it be called.  A fetch error other
than the entry-not-found sentinel aborts; each snapshot is reconstructed
and registered; the per-session `MoveState` re-drive (lines 655-657) is an
external-engine call with no registry effect and is omitted from the state
transition; `Clean` is called only when at least one snapshot was loaded,
and its missing-bucket sentinel is tolerated.  Returns the new registry
and whether the durable store was cleaned. -/
def restoreInterruptedGames (m : Manager) (now : Int) (states : List State)
    (ferr : Option StateDbFetchErr) (cleanRes : Option StateDbCleanErr) :
    Except String (Manager × Bool) :=
  match ferr with
  | some (StateDbFetchErr.other e) => Except.error ("stat db fetch all: " ++ e)
  | _ =>
    let m1 := restoreFold m now states
    if states.length > 0 then
      match cleanRes with
      | some StateDbCleanErr.bucketNotFound => Except.ok (m1, true)
      | some (StateDbCleanErr.other e) => Except.error ("state db clean: " ++ e)
      | none => Except.ok (m1, true)
    else
      Except.ok (m1, false)

/-- C6: (1) fetching zero snapshots with the not-found sentinel is not an
error and leaves the registry unchanged (zero reconstructed matches, and no
clean); (2) whenever the run reports the store as cleaned, at least one
snapshot had been loaded; (3) with snapshots loaded, a missing-bucket
answer from Clean is tolerated — the run still succeeds with the
reconstructed registry. -/
theorem restoreInterruptedGames_spec (m : Manager) (now : Int)
    (states : List State) (cleanRes : Option StateDbCleanErr) :
    (restoreInterruptedGames m now [] (some StateDbFetchErr.entryNotFound) cleanRes
        = Except.ok (m, false)) ∧
    (∀ ferr m' b, restoreInterruptedGames m now states ferr cleanRes = Except.ok (m', b) →
        b = true → states ≠ []) ∧
    (states ≠ [] →
      restoreInterruptedGames m now states none (some StateDbCleanErr.bucketNotFound)
        = Except.ok (restoreFold m now states, true)) := by
  refine ⟨rfl, ?_, ?_⟩
  · intro ferr m' b h hb
    cases states with
    | cons s rest => exact List.cons_ne_nil s rest
    | nil =>
      intro _
      subst hb
      cases ferr with
      | none => simp [restoreInterruptedGames, restoreFold] at h
      | some fe =>
        cases fe with
        | entryNotFound => simp [restoreInterruptedGames, restoreFold] at h
        | other e => simp [restoreInterruptedGames] at h
  · intro hne
    have hlen : states.length > 0 := List.length_pos.mpr hne
    simp [restoreInterruptedGames, hlen]

/-- A concrete snapshot used by the C6 witness. -/
def stateW : State :=
  { timeout := 5, authorID := 7, authorName := "a", roundsNum := 3
    roundTime := 30, vote := false, code := 42, state := 2, currRoundIdx := 1
    createdAt := 0, categories := ["cat"], letters := ["b"], bloopses := []
    players := [{ userID := 7, offline := false, rates := [] }] }

/-- Witness for C6's third conjunct: one loaded snapshot plus a
missing-bucket Clean answer still succeeds and reports the store
cleaned. -/
theorem restoreInterruptedGames_witness :
    [stateW] ≠ ([] : List State) ∧
    restoreInterruptedGames mgrCb 0 [stateW] none (some StateDbCleanErr.bucketNotFound)
      = Except.ok (restoreFold mgrCb 0 [stateW], true) :=
  ⟨by simp, (restoreInterruptedGames_spec mgrCb 0 [stateW] (some StateDbCleanErr.bucketNotFound)).2.2 (by simp)⟩

/-- The player-membership and match deregistration loop shared by
`matchWarnFn` and `matchDoneFn` (manager.go lines 421-425 and 436-440):
delete every player's match-membership entry, then the match itself. -/
def deregisterMatch (m : Manager) (session : MatchSession) : Manager :=
  let m1 :=
    { m with
      userMatchSessions :=
        session.players.foldl
          (fun (acc : Int → Option MatchSession) (p : Player) =>
            fun k => if k = p.userID then none else acc k)
          m.userMatchSessions }
  { m1 with
    matchSessions := fun k => if k = session.config.code then none else m1.matchSessions k }

/-- `manager.matchWarnFn` (manager.go lines 413-428): under the exclusive
lock, serialize the session to durable storage; on failure return the
wrapped error with the registry untouched, otherwise deregister the match
and all its players' membership entries.  `addRes` is the durable store's
answer to `stateDB.Add`. -/
def matchWarnFn (m : Manager) (session : MatchSession)
    (addRes : State → Option String) : Manager × Option String :=
  match serializeGames addRes session with
  | some e => (m, some ("serializeGames match session: " ++ e))
  | none => (deregisterMatch m session, none)

/-- The first stat-store failure across the record writes of `appendStat`
(manager.go lines 744-748); `addRes` is the stat store's answer per
record. -/
def firstStatAddErr (addRes : Stat → Option String) : List Stat → Option String
  | [] => none
  | s :: rest =>
    match addRes s with
    | some e => some ("stat db add: " ++ e)
    | none => firstStatAddErr addRes rest

/-- `manager.appendStat` (manager.go lines 672-751): build the per-player
records and write them to the stat store, aborting on the first write
failure. -/
def appendStat (addRes : Stat → Option String) (session : MatchSession)
    (favorites : List Int) : Option String :=
  firstStatAddErr addRes (appendStatRecords session favorites)

/-- `manager.matchDoneFn` (manager.go lines 430-443): under the exclusive
lock, run the statistics aggregation; on failure return the wrapped error
with the registry untouched, otherwise deregister the match and all its
players' membership entries. -/
def matchDoneFn (m : Manager) (session : MatchSession) (favorites : List Int)
    (addRes : Stat → Option String) : Manager × Option String :=
  match appendStat addRes session favorites with
  | some e => (m, some ("append stat: " ++ e))
  | none => (deregisterMatch m session, none)

/-- C10: both termination paths are atomic with respect to the registry on
persistence failure — a failing snapshot write makes `matchWarnFn` return
the error with the registry exactly as before, and a failing stat write
makes `matchDoneFn` return the error with the registry exactly as
before. -/
theorem matchTermination_atomic_on_failure (m : Manager) (session : MatchSession)
    (favorites : List Int) (stateAdd : State → Option String)
    (statAdd : Stat → Option String) (e e' : String)
    (hw : serializeGames stateAdd session = some e)
    (hd : appendStat statAdd session favorites = some e') :
    matchWarnFn m session stateAdd = (m, some ("serializeGames match session: " ++ e)) ∧
    matchDoneFn m session favorites statAdd = (m, some ("append stat: " ++ e')) := by
  constructor
  · simp [matchWarnFn, hw]
  · simp [matchDoneFn, hd]

/-- A durable-store answer that fails every write, for the C10 witness. -/
def stateAddFail : State → Option String := fun _ => some "disk full"

/-- A stat-store answer that fails every write, for the C10 witness. -/
def statAddFail : Stat → Option String := fun _ => some "disk full"

/-- Witness for C10 on a concrete registry and session: both failing paths
return their wrapped errors and leave the registry untouched. -/
theorem matchTermination_atomic_witness :
    serializeGames stateAddFail mSessW = some ("state db add: " ++ "disk full") ∧
    appendStat statAddFail mSessW [] = some ("stat db add: " ++ "disk full") ∧
    matchWarnFn mgrW mSessW stateAddFail
      = (mgrW, some ("serializeGames match session: " ++ ("state db add: " ++ "disk full"))) ∧
    matchDoneFn mgrW mSessW [] statAddFail
      = (mgrW, some ("append stat: " ++ ("stat db add: " ++ "disk full"))) := by
  refine ⟨rfl, rfl, ?_⟩
  exact matchTermination_atomic_on_failure mgrW mSessW [] stateAddFail statAddFail _ _ rfl rfl

/-- The middleware walk of `commandHandler.execute` (manager.go lines
62-75): for each predicate in order, an error aborts with the wrapped
error, a false result returns nil, and only when all pass does the command
body run.  The Bool component records whether the body ran. -/
def executeMiddleware (body : User → Int → Option String) (u : User) (chatID : Int) :
    List Middleware → Bool × Option String
  | [] => (true, body u chatID)
  | f :: rest =>
    match (f u chatID).snd with
    | some e => (false, some ("command handler execute: " ++ e))
    | none =>
      if (f u chatID).fst then executeMiddleware body u chatID rest
      else (false, none)

/-- `commandHandler.execute` (manager.go lines 62-75). -/
def CommandHandler.execute (t : CommandHandler) (u : User) (chatID : Int) :
    Bool × Option String :=
  executeMiddleware t.commandFn u chatID t.middlewareFn

theorem executeMiddleware_fst (body : User → Int → Option String) (u : User)
    (c : Int) (fs : List Middleware) :
    (executeMiddleware body u c fs).fst
      = fs.all (fun f => (f u c).fst && (f u c).snd.isNone) := by
  induction fs with
  | nil => rfl
  | cons f rest ih =>
    cases h : (f u c).snd with
    | some e => simp [executeMiddleware, h]
    | none =>
      cases hok : (f u c).fst <;> simp [executeMiddleware, h, hok, ih]

theorem executeMiddleware_append_pass (body : User → Int → Option String)
    (u : User) (c : Int) (pre rest : List Middleware)
    (hpre : ∀ g ∈ pre, (g u c).fst = true ∧ (g u c).snd = none) :
    executeMiddleware body u c (pre ++ rest) = executeMiddleware body u c rest := by
  induction pre with
  | nil => rfl
  | cons g gs ih =>
    have hg := hpre g (List.mem_cons_self g gs)
    have hgs : ∀ x ∈ gs, (x u c).fst = true ∧ (x u c).snd = none :=
      fun x hx => hpre x (List.mem_cons_of_mem g hx)
    calc executeMiddleware body u c (g :: gs ++ rest)
        = executeMiddleware body u c (gs ++ rest) := by
          simp [executeMiddleware, hg.1, hg.2]
      _ = executeMiddleware body u c rest := ih hgs

/-- C7: for every command-table entry, (1) the command body runs iff every
middleware predicate passes (returns true with nil error); (2) when the
body runs, the entry's result is exactly the body's result; (3) for the
first non-passing predicate — all predicates before it passing — an error
answer aborts with that wrapped error without running the body, and a
"do not proceed" answer (false, nil) returns nil without running the
body. -/
theorem commandHandler_execute_spec (t : CommandHandler) (u : User) (c : Int) :
    ((t.execute u c).fst = true ↔
      ∀ f ∈ t.middlewareFn, (f u c).fst = true ∧ (f u c).snd = none) ∧
    ((t.execute u c).fst = true → (t.execute u c).snd = t.commandFn u c) ∧
    (∀ pre f post, t.middlewareFn = pre ++ f :: post →
      (∀ g ∈ pre, (g u c).fst = true ∧ (g u c).snd = none) →
      (∀ e, (f u c).snd = some e →
        t.execute u c = (false, some ("command handler execute: " ++ e))) ∧
      ((f u c).snd = none → (f u c).fst = false → t.execute u c = (false, none))) := by
  have hiff : (t.execute u c).fst = true ↔
      ∀ f ∈ t.middlewareFn, (f u c).fst = true ∧ (f u c).snd = none := by
    rw [CommandHandler.execute, executeMiddleware_fst, List.all_eq_true]
    constructor
    · intro h f hf
      have := h f hf
      rw [Bool.and_eq_true, Option.isNone_iff_eq_none] at this
      exact this
    · intro h f hf
      rw [Bool.and_eq_true, Option.isNone_iff_eq_none]
      exact h f hf
  refine ⟨hiff, ?_, ?_⟩
  · intro hrun
    have hall := hiff.mp hrun
    have : executeMiddleware t.commandFn u c (t.middlewareFn ++ [])
        = executeMiddleware t.commandFn u c [] :=
      executeMiddleware_append_pass t.commandFn u c t.middlewareFn [] hall
    rw [List.append_nil] at this
    rw [CommandHandler.execute, this]
    rfl
  · intro pre f post heq hpre
    have hsplit : t.execute u c = executeMiddleware t.commandFn u c (f :: post) := by
      rw [CommandHandler.execute, heq]
      exact executeMiddleware_append_pass t.commandFn u c pre (f :: post) hpre
    constructor
    · intro e he
      rw [hsplit]
      simp [executeMiddleware, he]
    · intro hnone hfalse
      rw [hsplit]
      simp [executeMiddleware, hnone, hfalse]

/-- A middleware predicate that passes, for the C7 witness. -/
def mwPass : Middleware := fun _ _ => (true, none)

/-- A middleware predicate that fails with an error, for the C7 witness. -/
def mwErr : Middleware := fun _ _ => (false, some "boom")

/-- A concrete command-table entry whose second middleware errors, for the
C7 witness. -/
def cmdHandlerW : CommandHandler :=
  { commandFn := fun _ _ => none, middlewareFn := [mwPass, mwErr] }

/-- Witness for C7: with middleware [pass, error], execution aborts with
the wrapped error and the body does not run. -/
theorem commandHandler_execute_witness :
    cmdHandlerW.middlewareFn = [mwPass] ++ mwErr :: [] ∧
    cmdHandlerW.execute User.zero 0 = (false, some ("command handler execute: " ++ "boom")) := by
  refine ⟨rfl, ?_⟩
  have h := (commandHandler_execute_spec cmdHandlerW User.zero 0).2.2
    [mwPass] mwErr [] rfl ?_
  · exact h.1 "boom" rfl
  · intro g hg
    rw [List.mem_singleton] at hg
    subst hg
    exact ⟨rfl, rfl⟩

/-- A chat-gateway user attached to an inbound event (`tgbotapi.User`),
with the fields `recvUser` reads. -/
structure TgUser where
  id : Int
  firstName : String
  lastName : String
  languageCode : String
  userName : String
  deriving DecidableEq

/-- An inbound event (`tgbotapi.Update`), reduced to what `recvUser`
inspects: whether a callback query and/or message is present and who sent
it. -/
structure Update where
  callbackFrom : Option TgUser
  messageFrom : Option TgUser
  deriving DecidableEq

/-- The sender-extraction switch of `recvUser` (manager.go lines 526-533):
the callback sender takes priority, then the message sender; neither means
the telegram-response-type-not-found protocol error. -/
def tgUserOf (upd : Update) : Option TgUser :=
  match upd.callbackFrom with
  | some t => some t
  | none =>
    match upd.messageFrom with
    | some t => some t
    | none => none

/-- `userDb.Fetch` failure modes: the not-found sentinel
`userDb.ErrNotFound`, or any other storage error. -/
inductive UserDbErr
  | notFound
  | other (e : String)
  deriving DecidableEq

/-- `statDb.FetchRateStat` failure modes: the not-found sentinel
`statDb.ErrNotFound`, or any other storage error. -/
inductive StatDbErr
  | notFound
  | other (e : String)
  deriving DecidableEq

/-- The aggregate rating returned by `statDb.FetchRateStat`, with the two
fields `recvUser` copies onto the user. -/
structure RateStat where
  stars : Int
  bloops : Int
  deriving DecidableEq

/-- `manager.recvUser` (manager.go lines 523-571).  `fetchRes`, `storeRes`
and `statRes` are the storage collaborators' answers to `userDB.Fetch`,
`userDB.Store` and `statDB.FetchRateStat`.  The fetch branch mirrors the
source exactly: only the not-found sentinel triggers user creation; any
OTHER fetch error is silently ignored and `u` keeps its Go zero value
(manager.go lines 536-557 have no else branch and no return for that
case), after which control falls through to the rating lookup. -/
def recvUser (upd : Update) (adminUsername : String) (now : Int)
    (fetchRes : Except UserDbErr User) (storeRes : Option String)
    (statRes : Except StatDbErr RateStat) : Except String User :=
  match tgUserOf upd with
  | none => Except.error "telegram response not found"
  | some tgUser =>
    let afterFetch : Except String User :=
      match fetchRes with
      | Except.ok fetched => Except.ok fetched
      | Except.error UserDbErr.notFound =>
        let username :=
          if "@".isPrefixOf tgUser.userName then tgUser.userName.drop 1 else tgUser.userName
        let newUser : User :=
          { id := tgUser.id
            firstName := tgUser.firstName
            lastName := tgUser.lastName
            languageCode := tgUser.languageCode
            username := tgUser.userName
            admin := username = adminUsername
            status := StatusActive
            createdAt := now
            stars := 0
            bloops := 0 }
        match storeRes with
        | some e => Except.error ("userdb store: " ++ e)
        | none => Except.ok newUser
      | Except.error (UserDbErr.other _) => Except.ok User.zero
    match afterFetch with
    | Except.error e => Except.error e
    | Except.ok u =>
      match statRes with
      | Except.error StatDbErr.notFound => Except.ok u
      | Except.error (StatDbErr.other e) => Except.error ("fetch profile stat: " ++ e)
      | Except.ok stat => Except.ok { u with stars := stat.stars, bloops := stat.bloops }

/-- C9: when the user-store fetch fails with an error other than the
not-found sentinel, `recvUser` swallows it: the zero-valued user proceeds
to the rating lookup, and when that lookup reports not-found the function
returns the zero-valued user with a nil error. -/
theorem recvUser_swallows_fetch_error (upd : Update) (adminUsername : String)
    (now : Int) (t : TgUser) (e : String) (storeRes : Option String)
    (h : tgUserOf upd = some t) :
    recvUser upd adminUsername now (Except.error (UserDbErr.other e)) storeRes
        (Except.error StatDbErr.notFound)
      = Except.ok User.zero := by
  simp [recvUser, h]

/-- A concrete inbound message event for the C9 witness. -/
def updW : Update :=
  { callbackFrom := none
    messageFrom := some { id := 9, firstName := "f", lastName := "l"
                          languageCode := "en", userName := "@nine" } }

/-- Witness for C9 on a concrete event: a broken user fetch plus a
not-found rating yields the zero user and no error. -/
theorem recvUser_swallows_witness :
    tgUserOf updW = some { id := 9, firstName := "f", lastName := "l"
                           languageCode := "en", userName := "@nine" } ∧
    recvUser updW "adm" 0 (Except.error (UserDbErr.other "io fail")) none
        (Except.error StatDbErr.notFound)
      = Except.ok User.zero :=
  ⟨rfl, recvUser_swallows_fetch_error updW "adm" 0 _ "io fail" none rfl⟩

end BloopsBot
